import Mathlib

/-!
Verification of the chatapi delivery core against its natural-language
specification.

The definitions below are a shallow embedding of the Python source under
`src/app/`.  Python dictionaries are modelled as association lists
(`List (String × α)`), mutable module state is threaded explicitly as record
values, network and database side effects are abstracted into explicit inputs
and outputs, and Python exception control flow is modelled with `Except`.
Every definition is annotated with the source file and function it embeds.
-/

set_option autoImplicit false

/-! ## Association-list helpers (Python `dict` semantics) -/

/-- `d.get(k)` / `d[k]` lookup on an association list. -/
def lookupKey {α : Type} (k : String) : List (String × α) → Option α
  | [] => none
  | (k2, v) :: rest => if k2 = k then some v else lookupKey k rest

/-- `d.pop(k, None)`: remove every binding of `k` (a Python dict has at most
one, so removing all bindings agrees with dict semantics on dict-like lists). -/
def eraseKey {α : Type} (k : String) (l : List (String × α)) : List (String × α) :=
  l.filter (fun p => p.1 ≠ k)

/-- `d[k] = v`: replace the binding in place when the key exists, otherwise
append it (Python dicts preserve insertion order). -/
def insertKey {α : Type} (k : String) (v : α) (l : List (String × α)) : List (String × α) :=
  if (lookupKey k l).isSome then
    l.map (fun p => if p.1 = k then (k, v) else p)
  else
    l ++ [(k, v)]

/-! ## ScopedKeyService (src/app/services/scoped_key.py)

`get_by_scoped_api_key` filters with the Python expression
`ScopedKey.is_active is True`.  The left operand of `is` is the SQLAlchemy
column attribute object, not a `bool`, so the identity test is evaluated
eagerly in Python and yields the constant `False`, which SQLAlchemy renders
as an always-false WHERE clause.  `PyVal` models the two Python objects that
take part in that identity test. -/

/-- A Python value appearing in the `is` comparison: the `True` singleton
(or `False`), or a SQLAlchemy instrumented column attribute. -/
inductive PyVal where
  | pybool (b : Bool)
  | pycolumn (table : String) (col : String)
  deriving Repr, DecidableEq

/-- Python object-identity test `a is b` restricted to the objects above:
booleans are singletons, and a column attribute is a distinct object that is
never identical to a boolean. -/
def pyIs : PyVal → PyVal → Bool :=
  fun a b => a == b

/-- One row of the `scoped_keys` table (fields relevant to the lookup). -/
structure ScopedKeyRow where
  client_id : String
  user_id : String
  scoped_api_key : String
  is_active : Bool
  last_used_at : Option Nat
  deriving Repr, DecidableEq

namespace ScopedKeyService

/-- `select(ScopedKey).where(cond)` where `cond` is the constant Python
boolean produced by the `is` expression: a true constant keeps every row,
a false constant matches no rows. -/
def select_scoped_keys (db : List ScopedKeyRow) (cond : Bool) : List ScopedKeyRow :=
  if cond then db else []

/-- Embeds `ScopedKeyService.get_by_scoped_api_key`
(src/app/services/scoped_key.py lines 18-36).  `verify_api_key` abstracts the
bcrypt hash comparison from `app.core.security`; `now` abstracts
`sqlalchemy.func.now()`.  Returns the found key (if any) together with the
database state after the `last_used_at` update and commit. -/
def get_by_scoped_api_key (db : List ScopedKeyRow)
    (verify_api_key : String → String → Bool) (api_key : String) (now : Nat) :
    Option ScopedKeyRow × List ScopedKeyRow :=
  let scoped_keys :=
    select_scoped_keys db (pyIs (PyVal.pycolumn ("scoped_keys") ("is_active")) (PyVal.pybool true))
  match scoped_keys.find? (fun row => verify_api_key api_key row.scoped_api_key) with
  | some row =>
      (some row, db.map (fun r => if r = row then { r with last_used_at := some now } else r))
  | none => (none, db)

/-- Embeds `ScopedKeyService.verify_scoped_api_key`
(src/app/services/scoped_key.py lines 38-40): delegates to
`get_by_scoped_api_key`. -/
def verify_scoped_api_key (db : List ScopedKeyRow)
    (verify_api_key : String → String → Bool) (api_key : String) (now : Nat) :
    Option ScopedKeyRow × List ScopedKeyRow :=
  get_by_scoped_api_key db verify_api_key api_key now

end ScopedKeyService

/-! ## Socket.IO session registry (src/app/sockets/sockets.py) -/

/-- The per-session dictionary stored in `session_users[sid]`
(src/app/sockets/sockets.py lines 90-96). -/
structure UserInfo where
  user_id : String
  display_name : String
  client_id : String
  connection_key : String
  is_scoped : Bool
  deriving Repr, DecidableEq

/-- The module-level mutable state of `app/sockets/sockets.py`:
`active_connections : connection_key → sid`, `session_users : sid → info`,
`user_rooms : sid → joined room ids`.  `closed` logs, in order, the sids whose
transport was closed by a server-side `sio_server.disconnect` call; socket.io
event emissions are external side effects and are not part of the state. -/
structure SioState where
  active_connections : List (String × String)
  session_users : List (String × UserInfo)
  user_rooms : List (String × List String)
  closed : List String
  deriving Repr, DecidableEq

/-- The module state with no connections (process start). -/
def SioState.empty : SioState :=
  { active_connections := [], session_users := [], user_rooms := [], closed := [] }

namespace Sockets

/-- Embeds the `disconnect` event handler
(src/app/sockets/sockets.py lines 124-147): if the sid has a session entry,
leave its rooms, pop `active_connections[connection_key]` when the key is
truthy, and pop the `session_users` and `user_rooms` entries.  The
`notify_user_offline` emit is an external side effect. -/
def disconnect (s : SioState) (sid : String) : SioState :=
  match lookupKey sid s.session_users with
  | none => s
  | some user_info =>
      let s1 :=
        if user_info.connection_key ≠ "" then
          { s with active_connections := eraseKey user_info.connection_key s.active_connections }
        else s
      { s1 with
          session_users := eraseKey sid s1.session_users,
          user_rooms := eraseKey sid s1.user_rooms }

/-- Embeds the post-authentication registration part of the `connect` event
handler (src/app/sockets/sockets.py lines 75-116): compute
`connection_key = f"{client.id}:{user_id}"`; if a session already holds that
key, call `sio_server.disconnect(old_sid)` (which closes the old transport —
logged in `closed` — and runs the `disconnect` handler) and pop the old
session maps; then store the new mappings and join the user to its rooms
(`rooms` abstracts the room ids returned by `room_service.get_user_rooms`). -/
def connect_registration (s : SioState) (client_id user_id display_name : String)
    (is_scoped : Bool) (sid : String) (rooms : List String) : SioState :=
  let connection_key := client_id ++ ":" ++ user_id
  let s1 :=
    match lookupKey connection_key s.active_connections with
    | some old_sid =>
        let s2 := disconnect { s with closed := s.closed ++ [old_sid] } old_sid
        { s2 with
            session_users := eraseKey old_sid s2.session_users,
            user_rooms := eraseKey old_sid s2.user_rooms }
    | none => s
  let info : UserInfo :=
    { user_id := user_id, display_name := display_name, client_id := client_id,
      connection_key := connection_key, is_scoped := is_scoped }
  let s3 :=
    { s1 with
        active_connections := insertKey connection_key sid s1.active_connections,
        session_users := insertKey sid info s1.session_users,
        user_rooms := insertKey sid ([] : List String) s1.user_rooms }
  { s3 with user_rooms := insertKey sid rooms s3.user_rooms }

/-- A sequence of completed `connect` handshakes for one (client, user)
identity, with session ids `sids`, starting from state `s`. -/
def connect_sequence (client_id user_id display_name : String) (rooms : List String)
    (sids : List String) (s : SioState) : SioState :=
  sids.foldl (fun st sid => connect_registration st client_id user_id display_name false sid rooms) s

/-- Embeds `get_online_users` (src/app/sockets/sockets.py lines 641-647):
collects `user_info["user_id"]` for every session whose `user_id` is truthy,
with no filtering on `client_id`. -/
def get_online_users (session_users : List (String × UserInfo)) : List String :=
  (session_users.filter (fun p => p.2.user_id ≠ "")).map (fun p => p.2.user_id)

/-- Embeds the `online_users` event handler
(src/app/sockets/sockets.py lines 584-592): an unauthenticated sid gets no
reply; an authenticated sid receives the full `get_online_users` list. -/
def online_users_event (session_users : List (String × UserInfo)) (sid : String) :
    Option (List String) :=
  match lookupKey sid session_users with
  | none => none
  | some _ => some (get_online_users session_users)

end Sockets

/-! ## Webhook processing task (src/app/workers/webhook_tasks.py) -/

/-- Webhook endpoint statuses (src/app/models/webhook.py lines 44-50). -/
inductive WebhookStatus where
  | active
  | inactive
  | suspended
  | pending_verification
  deriving Repr, DecidableEq

/-- One row of `webhook_endpoints` (src/app/models/webhook.py lines 64-150),
restricted to the delivery-relevant fields. -/
structure WebhookEndpointRow where
  url : String
  secret : String
  max_retry_attempts : Nat
  status : WebhookStatus
  consecutive_failures : Nat
  deriving Repr, DecidableEq

/-- The webhook task payload (the two fields the task reads). -/
structure WebhookEventData where
  event_type : Option String
  client_id : Option String
  deriving Repr, DecidableEq

/-- The dictionary returned by the webhook task. -/
structure WebhookTaskResult where
  status : String
  event_type : String
  client_id : String
  deriving Repr, DecidableEq

namespace WebhookTasks

/-- Embeds `process_webhook_event` (src/app/workers/webhook_tasks.py lines
16-50).  The body is an acknowledged placeholder ("TODO: Implement webhook
processing logic"): it reads `event_type` and `client_id` with `"unknown"`
defaults and returns a success dictionary.  It performs no database
operation, so the webhook-endpoint table — threaded here as explicit state —
is returned unchanged. -/
def process_webhook_event (d : WebhookEventData)
    (endpoints : List WebhookEndpointRow) : WebhookTaskResult × List WebhookEndpointRow :=
  ({ status := "success",
     event_type := d.event_type.getD ("unknown"),
     client_id := d.client_id.getD ("unknown") },
   endpoints)

end WebhookTasks

/-! ## Email provider manager (src/app/providers/email_manager.py) -/

/-- Modelled from the spec: the enum `EmailProviderType` is imported by
`src/app/providers/email_manager.py` and `src/app/schemas/email_config.py`
from `app.models.email_config`, but no definition of it exists under src/.
Following spec §9 ("a registry/factory keyed by provider-type tag") and the
five entries of `EmailProviderFactory._providers`, it is modelled as a
string-valued enum with one tag per vendor; `value` is the string the tag
compares equal to (the dict key in `EmailProviderManager.providers`). -/
inductive EmailProviderType where
  | smtp
  | mailgun
  | sendgrid
  | postmark
  | ses
  deriving Repr, DecidableEq

/-- The string value of the provider-type tag (the dict key used in
`EmailProviderManager.providers`). -/
def EmailProviderType.value : EmailProviderType → String
  | .smtp => "smtp"
  | .mailgun => "mailgun"
  | .sendgrid => "sendgrid"
  | .postmark => "postmark"
  | .ses => "ses"

/-- `provider.__class__.__name__` for the class the factory registry
`EmailProviderFactory._providers` (src/app/providers/email_manager.py lines
20-26) associates to each tag. -/
def EmailProviderType.className : EmailProviderType → String
  | .smtp => "SMTPProvider"
  | .mailgun => "MailgunProvider"
  | .sendgrid => "SendGridProvider"
  | .postmark => "PostmarkProvider"
  | .ses => "SESProvider"

/-- One entry of the initialized `EmailProviderManager.providers` dict:
the key is `provider_type.value`, and the stored provider instance carries
the metadata attached in `initialize_providers`
(src/app/providers/email_manager.py lines 110-134).  `send_success` and
`send_error` abstract the outcome of awaiting the provider's network
`send_email` call: the `success` and `error` fields of the returned dict. -/
structure Provider where
  provider_type : EmailProviderType
  is_primary : Bool
  is_bulk : Bool
  max_recipients : Nat
  send_success : Bool
  send_error : Option String
  deriving Repr, DecidableEq

namespace EmailProviderManager

/-- Embeds `EmailProviderManager.get_provider_for_sending`
(src/app/providers/email_manager.py lines 147-176): with no providers return
`None`; for `recipient_count <= 5` first scan for a primary provider whose
`_max_recipients` covers the count; then scan for a bulk provider that
covers it; then for any provider that covers it; else `None`.  Scans follow
the insertion order of the providers dict. -/
def get_provider_for_sending (providers : List Provider) (recipient_count : Nat) :
    Option Provider :=
  if providers.isEmpty then none
  else
    match (if recipient_count ≤ 5 then
            providers.find? (fun p => p.is_primary && decide (recipient_count ≤ p.max_recipients))
          else none) with
    | some p => some p
    | none =>
        match providers.find? (fun p => p.is_bulk && decide (recipient_count ≤ p.max_recipients)) with
        | some p => some p
        | none => providers.find? (fun p => decide (recipient_count ≤ p.max_recipients))

/-- Embeds `EmailProviderManager.get_fallback_provider`
(src/app/providers/email_manager.py lines 178-185): the first provider whose
dict key differs from `failed_provider_type` (string comparison of the tag
values, which — the tags being distinct strings — is tag inequality). -/
def get_fallback_provider (providers : List Provider)
    (failed_provider_type : EmailProviderType) : Option Provider :=
  providers.find? (fun p => p.provider_type != failed_provider_type)

end EmailProviderManager

/-! ## Email notification processing (src/app/workers/notification_tasks.py) -/

/-- The fields of the task payload `notification_data` read by
`process_email_notification`.  A missing or `None` string field is modelled
as `""` (both are falsy in the `if not all([...])` check); `attempts` is
`notification_data.get("attempts", 0)`.  The initialized provider manager
(either built from a notification-specific `provider_config` or returned by
the client-config path) is passed separately as `List Provider`. -/
structure EmailNotificationData where
  id : String
  to_email : String
  subject : String
  content : String
  from_email : Option String
  reply_to : Option String
  cc : List String
  bcc : List String
  client_id : Option String
  attempts : Nat
  deriving Repr, DecidableEq

/-- One `NotificationDeliveryAttempt` row as written by
`NotificationService.record_delivery_attempt`
(src/app/services/notification.py lines 216-243): `status` is `"success"`
or `"failed"`, held here as a boolean `success` flag. -/
structure DeliveryAttemptRec where
  attempt_number : Nat
  provider_name : String
  success : Bool
  error_message : Option String
  deriving Repr, DecidableEq

/-- The result dictionary returned by `process_email_notification`.
`fallback_used` is present (and `True`) only in the fallback-success return
(src/app/workers/notification_tasks.py line 294). -/
structure EmailProcResult where
  status : String
  provider : Option String
  fallback_used : Bool
  error : Option String
  deriving Repr, DecidableEq

/-- Notification statuses (src/app/models/notification.py lines 34-42). -/
inductive NotificationStatus where
  | pending
  | processing
  | sent
  | failed
  | retrying
  | cancelled
  deriving Repr, DecidableEq

namespace NotificationTasks

/-- `recipient_count` as computed in `process_email_notification`
(src/app/workers/notification_tasks.py lines 178-183): 1 plus the lengths of
the truthy `cc` and `bcc` lists (an empty list is falsy and adds 0). -/
def recipient_count (d : EmailNotificationData) : Nat :=
  1 + d.cc.length + d.bcc.length

/-- Embeds `process_email_notification`
(src/app/workers/notification_tasks.py lines 148-307).  Returns the result
dictionary together with the list of `DeliveryAttempt` rows recorded during
the cycle, in order.  Control flow: validate fields; require `client_id`;
select a provider (`get_provider_for_sending`); send and always record a
`DeliveryAttempt`; on success return; on failure derive the failed provider
type from the class name (`SMTP` when the name is `"SMTPProvider"`, else
`MAILGUN`), ask `get_fallback_provider`, send through it once recording a
second `DeliveryAttempt`, and return success or the primary error. -/
def process_email_notification (d : EmailNotificationData) (providers : List Provider) :
    EmailProcResult × List DeliveryAttemptRec :=
  if d.to_email = "" || d.subject = "" || d.content = "" then
    ({ status := "error", provider := none, fallback_used := false,
       error := some ("Missing required email fields (to_email, subject, content)") }, [])
  else
    match d.client_id with
    | none =>
        ({ status := "error", provider := none, fallback_used := false,
           error := some ("Missing client_id in notification data") }, [])
    | some client_id =>
        match EmailProviderManager.get_provider_for_sending providers (recipient_count d) with
        | none =>
            ({ status := "error", provider := none, fallback_used := false,
               error := some ("No email provider configured for client " ++ client_id) }, [])
        | some provider =>
            let provider_name := provider.provider_type.className
            let attempt1 : DeliveryAttemptRec :=
              { attempt_number := d.attempts + 1, provider_name := provider_name,
                success := provider.send_success, error_message := provider.send_error }
            if provider.send_success then
              ({ status := "success", provider := some provider_name,
                 fallback_used := false, error := none }, [attempt1])
            else
              let failed_provider_type :=
                if provider_name = "SMTPProvider" then EmailProviderType.smtp
                else EmailProviderType.mailgun
              match EmailProviderManager.get_fallback_provider providers failed_provider_type with
              | some fallback =>
                  let attempt2 : DeliveryAttemptRec :=
                    { attempt_number := d.attempts + 2,
                      provider_name := fallback.provider_type.className,
                      success := fallback.send_success, error_message := fallback.send_error }
                  if fallback.send_success then
                    ({ status := "success", provider := some fallback.provider_type.className,
                       fallback_used := true, error := none }, [attempt1, attempt2])
                  else
                    ({ status := "error", provider := some provider_name,
                       fallback_used := false,
                       error := some (provider.send_error.getD ("Email delivery failed")) },
                     [attempt1, attempt2])
              | none =>
                  ({ status := "error", provider := some provider_name,
                     fallback_used := false,
                     error := some (provider.send_error.getD ("Email delivery failed")) },
                   [attempt1])

/-- Embeds the email branch of `process_notification_async` plus the final
status update (src/app/workers/notification_tasks.py lines 101-124): a
result with status `"success"` moves the notification to `SENT`, anything
else to `FAILED`. -/
def process_notification_async_email (d : EmailNotificationData) (providers : List Provider) :
    NotificationStatus × EmailProcResult × List DeliveryAttemptRec :=
  let r := process_email_notification d providers
  (if r.1.status = "success" then NotificationStatus.sent else NotificationStatus.failed,
   r.1, r.2)

end NotificationTasks

/-- One row of the `notifications` table (src/app/models/notification.py
lines 54-122), restricted to the fields the email pipeline touches.
`max_retry_attempts` and `retry_attempt` are the delivery-configuration
columns (defaults 3 and 0). -/
structure NotificationRow where
  id : String
  client_id : String
  to_email : String
  subject : String
  content : String
  from_email : Option String
  reply_to : Option String
  cc : List String
  bcc : List String
  max_retry_attempts : Nat
  retry_attempt : Nat
  status : NotificationStatus
  delivery_attempts : List DeliveryAttemptRec
  deriving Repr, DecidableEq

namespace NotificationService

/-- The email-relevant part of the task payload built by
`NotificationService.trigger_delivery` (src/app/services/notification.py
lines 254-277): note that the dictionary carries the count of prior
delivery attempts as `attempts` but carries neither `max_retry_attempts`
nor `retry_attempt`. -/
def trigger_payload (n : NotificationRow) : EmailNotificationData :=
  { id := n.id, to_email := n.to_email, subject := n.subject, content := n.content,
    from_email := n.from_email, reply_to := n.reply_to, cc := n.cc, bcc := n.bcc,
    client_id := some n.client_id, attempts := n.delivery_attempts.length }

/-- Embeds `NotificationService.increment_retry_count`
(src/app/services/notification.py lines 114-125): adds one to
`retry_attempt` and sets status `RETRYING`.  Defined in the service layer
but invoked from nowhere in src/. -/
def increment_retry_count (n : NotificationRow) : NotificationRow :=
  { n with retry_attempt := n.retry_attempt + 1, status := NotificationStatus.retrying }

end NotificationService

/-- One full processing cycle for an email notification: the payload built
by `trigger_delivery` is handed to the Celery task, which runs
`process_notification_async` and writes the final status.  Returns the
final status and the `DeliveryAttempt` rows recorded by the cycle. -/
def process_after_trigger (n : NotificationRow) (providers : List Provider) :
    NotificationStatus × List DeliveryAttemptRec :=
  let r := NotificationTasks.process_notification_async_email
    (NotificationService.trigger_payload n) providers
  (r.1, r.2.2)

/-! ## WebSocket notification processing (src/app/workers/notification_tasks.py
    lines 310-448 and src/app/sockets/notification_utils.py) -/

/-- A Python exception raised during the websocket-notification flow. -/
inductive PyException where
  | importErr (name : String)
  | typeErr (fn : String) (kw : String)
  deriving Repr, DecidableEq

/-- `str(e)` for the exceptions above (the text stored into the result
dictionary by the blanket `except` handler). -/
def PyException.message : PyException → String
  | .importErr name => "cannot import name " ++ name ++ " from app.sockets.notification_utils"
  | .typeErr fn kw => fn ++ "() got an unexpected keyword argument " ++ kw

namespace NotificationUtils

/-- The top-level names bound in the module `app/sockets/notification_utils.py`
(its imports plus its definitions): `check_room_has_online_users` is not
among them. -/
def module_names : List String :=
  ["logging", "Any", "UUID", "NotificationType", "active_connections",
   "sio_server", "logger", "send_websocket_notification"]

/-- The parameter names of `send_websocket_notification`
(src/app/sockets/notification_utils.py lines 12-19).  The third parameter is
named `metadata`, not `meta`. -/
def send_websocket_notification_params : List String :=
  ["content", "subject", "metadata", "room_id", "target_client_id", "notification_type"]

/-- `from app.sockets.notification_utils import wanted`: succeeds when the
name is bound in the module, otherwise raises `ImportError`. -/
def import_name (wanted : String) : Except PyException Unit :=
  if module_names.contains wanted then Except.ok () else Except.error (PyException.importErr wanted)

/-- Calling a Python function by keyword: raises `TypeError` when a keyword
is not among the parameter names. -/
def call_with_kwargs (fn : String) (params : List String) (kwargs : List String) :
    Except PyException Unit :=
  match kwargs.find? (fun k => ! params.contains k) with
  | some k => Except.error (PyException.typeErr fn k)
  | none => Except.ok ()

/-- Modelled from the spec: the helper `check_room_has_online_users`,
imported by the worker from `app.sockets.notification_utils`, is defined
nowhere under src/.  Spec §4.3 exercises the fallback when "no member of
the target room was online", so the helper is modelled as: some connected
session has joined the target room (the shape of
`get_room_members_online` in src/app/sockets/sockets.py lines 675-681). -/
def check_room_has_online_users (session_users : List (String × UserInfo))
    (user_rooms : List (String × List String)) (room_id : String) : Bool :=
  session_users.any (fun p => ((lookupKey p.1 user_rooms).getD []).contains room_id)

/-- The result dictionary of `send_websocket_notification`. -/
structure WsSendResult where
  success : Bool
  delivered_to : List String
  errors : List String
  deriving Repr, DecidableEq

end NotificationUtils

/-- The `email_fallback` descriptor carried by a websocket notification
(read at src/app/workers/notification_tasks.py lines 388-397). -/
structure EmailFallbackDescriptor where
  to_email : String
  subject : Option String
  content : Option String
  from_email : Option String
  reply_to : Option String
  cc : List String
  bcc : List String
  deriving Repr, DecidableEq

/-- The fields of the task payload read by
`process_websocket_notification`; `content = ""` models a missing or falsy
content field, `attempts` is `notification_data.get("attempts", 0)`. -/
structure WsNotificationData where
  id : String
  room_id : Option String
  content : String
  subject : Option String
  email_fallback : Option EmailFallbackDescriptor
  attempts : Nat
  deriving Repr, DecidableEq

/-- The outcome of `process_websocket_notification`: the returned status and
error text, whether the email fallback path ran, and every
`DeliveryAttempt` row recorded during the call, in order. -/
structure WsProcResult where
  status : String
  error : Option String
  email_fallback_used : Bool
  delivery_attempts : List DeliveryAttemptRec
  deriving Repr, DecidableEq

namespace NotificationTasks

/-- The continuation of `process_websocket_notification` after the
function-level import statement (src/app/workers/notification_tasks.py lines
343-444): check online members, call `send_websocket_notification` —
passing the keyword `meta`, which is not a parameter of that function, so
the call raises `TypeError` whenever a `room_id` is present — record the
websocket `DeliveryAttempt`, evaluate
`should_fallback = email_fallback and (not success or not has_online_users)`
and run the email fallback (whose payload carries no `client_id`). -/
def process_websocket_after_imports (d : WsNotificationData) (providers : List Provider)
    (session_users : List (String × UserInfo)) (user_rooms : List (String × List String)) :
    WsProcResult :=
  let has_online_users :=
    match d.room_id with
    | some r => NotificationUtils.check_room_has_online_users session_users user_rooms r
    | none => false
  let ws_attempt : Except PyException NotificationUtils.WsSendResult :=
    match d.room_id with
    | some r =>
        (NotificationUtils.call_with_kwargs ("send_websocket_notification")
            NotificationUtils.send_websocket_notification_params
            ["content", "subject", "meta", "room_id"]).map
          (fun _ => { success := true, delivered_to := ["room:" ++ r], errors := [] })
    | none => Except.ok { success := false, delivered_to := [], errors := ["No room_id provided"] }
  match ws_attempt with
  | Except.error e =>
      { status := "error", error := some (e.message),
        email_fallback_used := false, delivery_attempts := [] }
  | Except.ok ws_result =>
      let success := ws_result.success
      let ws_att : DeliveryAttemptRec :=
        { attempt_number := d.attempts + 1, provider_name := "WebSocketManager",
          success := success,
          error_message := if success then none else some (String.intercalate (", ") ws_result.errors) }
      match d.email_fallback, (!success || !has_online_users) with
      | some fb, true =>
          let email_data : EmailNotificationData :=
            { id := d.id, to_email := fb.to_email,
              subject := fb.subject.getD (d.subject.getD ("")),
              content := fb.content.getD d.content,
              from_email := fb.from_email, reply_to := fb.reply_to,
              cc := fb.cc, bcc := fb.bcc,
              client_id := none, attempts := d.attempts + 1 }
          let er := process_email_notification email_data providers
          if er.1.status = "success" then
            { status := "success", error := none,
              email_fallback_used := true, delivery_attempts := ws_att :: er.2 }
          else
            { status := "error",
              error := some ("WebSocket delivery failed; email fallback also failed: "
                ++ (er.1.error.getD ("Unknown error"))),
              email_fallback_used := true, delivery_attempts := ws_att :: er.2 }
      | _, _ =>
          if success then
            { status := "success", error := none,
              email_fallback_used := false, delivery_attempts := [ws_att] }
          else
            { status := "error",
              error := some (String.intercalate (", ") ws_result.errors),
              email_fallback_used := false, delivery_attempts := [ws_att] }

/-- Embeds `process_websocket_notification`
(src/app/workers/notification_tasks.py lines 310-448): validate the
content; require a room id or a fallback descriptor; then execute
`from app.sockets.notification_utils import send_websocket_notification,
check_room_has_online_users` — the second name is not defined in that
module, so the import raises `ImportError`, which the blanket `except`
turns into an error result with no recorded attempt and no fallback.  The
(unreachable) continuation is `process_websocket_after_imports`. -/
def process_websocket_notification (d : WsNotificationData) (providers : List Provider)
    (session_users : List (String × UserInfo)) (user_rooms : List (String × List String)) :
    WsProcResult :=
  if d.content = "" then
    { status := "error",
      error := some ("Missing required content for WebSocket notification"),
      email_fallback_used := false, delivery_attempts := [] }
  else if d.room_id.isNone && d.email_fallback.isNone then
    { status := "error",
      error := some ("WebSocket notification requires either room_id or email_fallback"),
      email_fallback_used := false, delivery_attempts := [] }
  else
    match NotificationUtils.import_name ("send_websocket_notification") >>= fun _ =>
          NotificationUtils.import_name ("check_room_has_online_users") with
    | Except.error e =>
        { status := "error", error := some (e.message),
          email_fallback_used := false, delivery_attempts := [] }
    | Except.ok _ => process_websocket_after_imports d providers session_users user_rooms

end NotificationTasks

/-! ## Raw websocket handshake (src/app/api/api_v1/routes/websocket.py) -/

/-- What `_handle_initial_connection` receives: a timeout waiting for the
first frame, text that is not valid JSON, or a decoded JSON object (an
association list of its string fields). -/
inductive InitRecv where
  | timeout
  | badJson
  | frame (fields : List (String × String))
  deriving Repr, DecidableEq

/-- The observable outcome of `_handle_initial_connection`: the accepted
user id (if any), the error frame sent while the socket was still writable
(if any), and whether the socket was closed before registration. -/
structure InitResult where
  user_id : Option String
  error_sent : Option String
  closed_early : Bool
  deriving Repr, DecidableEq

namespace WebsocketRoute

/-- Embeds `_handle_initial_connection`
(src/app/api/api_v1/routes/websocket.py lines 63-91): a timeout closes the
socket; invalid JSON gets an error frame and a close; a frame whose `msg` is
not `"connect"` or which lacks `user_id` gets an error frame and a close;
otherwise the `user_id` value is returned.  No credential field is read or
validated on this path. -/
def handle_initial_connection : InitRecv → InitResult
  | .timeout => { user_id := none, error_sent := none, closed_early := true }
  | .badJson =>
      { user_id := none, error_sent := some ("Invalid JSON format"), closed_early := true }
  | .frame fields =>
      if lookupKey ("msg") fields ≠ some ("connect") ∨ (lookupKey ("user_id") fields).isNone then
        { user_id := none, error_sent := some ("Invalid connection message"), closed_early := true }
      else
        { user_id := lookupKey ("user_id") fields, error_sent := none, closed_early := false }

/-- Embeds the registration decision of `websocket_endpoint`
(src/app/api/api_v1/routes/websocket.py lines 20-42): the endpoint tests
`if not user_id: return` — Python truthiness, so both `None` and the empty
string skip registration — and only past that check calls
`manager.connect`, making the session active. -/
def websocket_endpoint_registers (r : InitRecv) : Bool :=
  match (handle_initial_connection r).user_id with
  | none => false
  | some user_id => user_id ≠ ""

end WebsocketRoute

/-- The observable outcome of the Socket.IO `connect` handler
authentication phase: the accepted session data (if any) and the error
event emitted to the client (the handler emits none on rejection — it only
calls `sio_server.disconnect`). -/
structure SioAuthOutcome where
  accepted : Option UserInfo
  emitted_error : Option String
  deriving Repr, DecidableEq

namespace Sockets

/-- Embeds the authentication phase of the `connect` event handler
(src/app/sockets/sockets.py lines 35-76): reject (disconnect, no error
event) when `auth` is missing or lacks `user_id` or `api_key`; validate the
key as a master key, then as a scoped key; on scoped validation the user id
and display name are taken from the scoped key.  `verify_master_api_key`
and `verify_scoped_api_key` abstract the `ClientService` database checks
(src/app/services/client.py lines 68-70 and 114-130), returning the client
id, and the client id with the scoped user id, respectively. -/
def connect_auth (auth : Option (List (String × String)))
    (verify_master_api_key : String → Option String)
    (verify_scoped_api_key : String → Option (String × String)) : SioAuthOutcome :=
  match auth with
  | none => { accepted := none, emitted_error := none }
  | some fields =>
      match lookupKey ("user_id") fields, lookupKey ("api_key") fields with
      | some user_id, some api_key =>
          let display_name := (lookupKey ("display_name") fields).getD user_id
          (match verify_master_api_key api_key with
           | some client_id =>
               { accepted := some
                   { user_id := user_id, display_name := display_name,
                     client_id := client_id,
                     connection_key := client_id ++ ":" ++ user_id, is_scoped := false },
                 emitted_error := none }
           | none =>
               match verify_scoped_api_key api_key with
               | some (client_id, scoped_user_id) =>
                   { accepted := some
                       { user_id := scoped_user_id, display_name := scoped_user_id,
                         client_id := client_id,
                         connection_key := client_id ++ ":" ++ scoped_user_id,
                         is_scoped := true },
                     emitted_error := none }
               | none => { accepted := none, emitted_error := none })
      | _, _ => { accepted := none, emitted_error := none }

end Sockets

/-! ## ConnectionManager (src/app/sockets/manager.py) -/

/-- The mutable state of the global `ConnectionManager` instance: user id →
websocket handle, user id → queued messages, user id → receive-task handle.
`closed` logs the websocket handles on which `websocket.close()` was
awaited.  Handles of registered connections are live (the transport state
of a dead peer is observed only through failed operations, which are
external here). -/
structure CMState where
  active_connections : List (String × Nat)
  message_queues : List (String × List String)
  receive_tasks : List (String × Nat)
  closed : List Nat
  deriving Repr, DecidableEq

namespace ConnectionManager

/-- Embeds `ConnectionManager._cleanup_user_internal`
(src/app/sockets/manager.py lines 51-77): cancel and await the receive task
(external), close the user's websocket when one is registered, then pop the
three dictionaries with `pop(user_id, None)`. -/
def cleanup_user_internal (s : CMState) (user_id : String) : CMState :=
  let s1 :=
    match lookupKey user_id s.active_connections with
    | some ws => { s with closed := s.closed ++ [ws] }
    | none => s
  { s1 with
      active_connections := eraseKey user_id s1.active_connections,
      message_queues := eraseKey user_id s1.message_queues,
      receive_tasks := eraseKey user_id s1.receive_tasks }

/-- Embeds `ConnectionManager.disconnect_async`
(src/app/sockets/manager.py lines 43-49): take the cleanup lock and run
`_cleanup_user_internal`. -/
def disconnect_async (s : CMState) (user_id : String) : CMState :=
  cleanup_user_internal s user_id

/-- Embeds `ConnectionManager.connect` (src/app/sockets/manager.py lines
18-36): under the cleanup lock, clean up any existing connection for the
user, then register the new websocket, a fresh message queue, and the
receive task (`task` abstracts the handle returned by
`asyncio.create_task`). -/
def connect (s : CMState) (websocket : Nat) (user_id : String) (task : Nat) : CMState :=
  let s1 :=
    if (lookupKey user_id s.active_connections).isSome then
      cleanup_user_internal s user_id
    else s
  { s1 with
      active_connections := insertKey user_id websocket s1.active_connections,
      message_queues := insertKey user_id ([] : List String) s1.message_queues,
      receive_tasks := insertKey user_id task s1.receive_tasks }

end ConnectionManager

/-! ## Spec-side helper states and concrete scenario inputs -/

/-- The `session_users` entry that `connect` stores for a session of the
given identity (src/app/sockets/sockets.py lines 90-96). -/
def Sockets.registeredInfo (client_id user_id display_name : String) : UserInfo :=
  { user_id := user_id, display_name := display_name, client_id := client_id,
    connection_key := client_id ++ ":" ++ user_id, is_scoped := false }

/-- The registry state holding exactly one session `sid` for the given
identity, with transport-close log `closedLog`. -/
def Sockets.singleSessionState (client_id user_id display_name : String)
    (rooms : List String) (sid : String) (closedLog : List String) : SioState :=
  { active_connections := [(client_id ++ ":" ++ user_id, sid)],
    session_users := [(sid, Sockets.registeredInfo client_id user_id display_name)],
    user_rooms := [(sid, rooms)],
    closed := closedLog }

/-- An always-failing provider configured as primary (scenario input). -/
def cexProviderC2 : Provider :=
  { provider_type := EmailProviderType.sendgrid, is_primary := true, is_bulk := true,
    max_recipients := 100, send_success := false,
    send_error := some ("SendGrid API error: 500") }

/-- An email notification with `max_retry_attempts = 1` and no prior
delivery attempts (scenario input). -/
def cexNotificationC2 : NotificationRow :=
  { id := "n1", client_id := "client-1", to_email := "user@example.com",
    subject := "Welcome", content := "Hello", from_email := none, reply_to := none,
    cc := [], bcc := [], max_retry_attempts := 1, retry_attempt := 0,
    status := NotificationStatus.pending, delivery_attempts := [] }

/-- A failing primary SendGrid provider (scenario input). -/
def sendgridPrimaryFailing : Provider :=
  { provider_type := EmailProviderType.sendgrid, is_primary := true, is_bulk := false,
    max_recipients := 100, send_success := false,
    send_error := some ("SendGrid API error: 500") }

/-- A healthy secondary Postmark provider (scenario input). -/
def postmarkHealthy : Provider :=
  { provider_type := EmailProviderType.postmark, is_primary := false, is_bulk := true,
    max_recipients := 100, send_success := true, send_error := none }

/-- A well-formed email task payload (scenario input). -/
def emailDataC6 : EmailNotificationData :=
  { id := "n2", to_email := "user@example.com", subject := "s", content := "c",
    from_email := none, reply_to := none, cc := [], bcc := [],
    client_id := some ("client-1"), attempts := 0 }

/-- An email-fallback descriptor (scenario input). -/
def wsFallbackC3 : EmailFallbackDescriptor :=
  { to_email := "user@example.com", subject := some ("s"), content := some ("c"),
    from_email := none, reply_to := none, cc := [], bcc := [] }

/-- A websocket notification targeting a room and carrying an email
fallback (scenario input). -/
def wsDataC3 : WsNotificationData :=
  { id := "n3", room_id := some ("room-1"), content := "hello", subject := some ("s"),
    email_fallback := some wsFallbackC3, attempts := 0 }

/-- A first frame of the raw websocket handshake that carries a user id but
no credential of any kind (scenario input). -/
def frameNoCredential : List (String × String) :=
  [("msg", "connect"), ("user_id", "u1")]

/-- Socket.IO auth data carrying a user id and an api key that fails
validation (scenario input). -/
def authBadKey : List (String × String) :=
  [("user_id", "u1"), ("api_key", "bad-key")]

/-- A connected session of tenant `clientA` (scenario input). -/
def infoTenantA : UserInfo :=
  { user_id := "alice", display_name := "alice", client_id := "clientA",
    connection_key := "clientA:alice", is_scoped := false }

/-- A connected session of tenant `clientB` (scenario input). -/
def infoTenantB : UserInfo :=
  { user_id := "bob", display_name := "bob", client_id := "clientB",
    connection_key := "clientB:bob", is_scoped := false }

/-- A `session_users` map holding one session of each of two tenants
(scenario input). -/
def sessionsTwoTenants : List (String × UserInfo) :=
  [("sidA", infoTenantA), ("sidB", infoTenantB)]

/-- A socket.io module state with one connected session (scenario input). -/
def sioStateC8 : SioState :=
  { active_connections := [("clientA:alice", "sidA")],
    session_users := [("sidA", infoTenantA)],
    user_rooms := [("sidA", ["room-1"])], closed := [] }

/-- A `ConnectionManager` state with one connected user (scenario input). -/
def cmStateC8 : CMState :=
  { active_connections := [("alice", 7)], message_queues := [("alice", [])],
    receive_tasks := [("alice", 3)], closed := [] }

/-- A webhook endpoint that has crossed a failure threshold of 5 and is
suspended (scenario input). -/
def suspendedEndpoint : WebhookEndpointRow :=
  { url := "https://client.example/hook", secret := "sec", max_retry_attempts := 3,
    status := WebhookStatus.suspended, consecutive_failures := 5 }

/-- A webhook event for that endpoint (scenario input). -/
def webhookEventC4 : WebhookEventData :=
  { event_type := some ("message.created"), client_id := some ("client-1") }

/-- A primary provider suited to small sends (scenario input). -/
def primarySmallProvider : Provider :=
  { provider_type := EmailProviderType.postmark, is_primary := true, is_bulk := false,
    max_recipients := 10, send_success := true, send_error := none }

/-- A bulk provider with large capacity (scenario input). -/
def bulkLargeProvider : Provider :=
  { provider_type := EmailProviderType.ses, is_primary := false, is_bulk := true,
    max_recipients := 1000, send_success := true, send_error := none }

/-! ## General lemmas about the dict helpers -/

theorem lookupKey_eraseKey {α : Type} (k : String) (l : List (String × α)) :
    lookupKey k (eraseKey k l) = none := by
  induction l with
  | nil => rfl
  | cons p rest ih =>
      by_cases h : p.1 = k
      · simpa [eraseKey, List.filter, h] using ih
      · simpa [eraseKey, List.filter, h, lookupKey] using ih

theorem eraseKey_eraseKey {α : Type} (k : String) (l : List (String × α)) :
    eraseKey k (eraseKey k l) = eraseKey k l := by
  induction l with
  | nil => rfl
  | cons p rest ih =>
      by_cases h : p.1 = k
      · simp [eraseKey, List.filter, h]
      · simp [eraseKey, List.filter, h]

/-! ## Claim C9 -/

/-- Claim C9: for every input api_key, `ScopedKeyService.get_by_scoped_api_key`
(and therefore `ScopedKeyService.verify_scoped_api_key`) returns `None` and
updates no `last_used_at` timestamp, because its query filters rows with the
Python expression `ScopedKey.is_active is True`, which evaluates to the
constant `False`, so the select matches no scoped keys regardless of what
keys exist or whether the presented key is valid. -/
theorem scoped_key_lookup_always_none :
    ∀ (db : List ScopedKeyRow) (verify_api_key : String → String → Bool)
      (api_key : String) (now : Nat),
      ScopedKeyService.get_by_scoped_api_key db verify_api_key api_key now = (none, db)
      ∧ ScopedKeyService.verify_scoped_api_key db verify_api_key api_key now = (none, db) := by
  intro db verify key now
  exact ⟨rfl, rfl⟩

/-! ## Claim C4 -/

/-- Claim C4 (code bug): the spec's webhook auto-suspension —
`consecutive_failures` incremented on failure, reset on success, `Suspended`
past the threshold, suspended endpoints short-circuiting all future events —
does not exist in the code: `process_webhook_event` is a TODO placeholder
that returns a success result for every event and never reads or writes any
endpoint state; in particular an event for an endpoint that is already
`Suspended` after 5 consecutive failures still yields status `"success"`
with the endpoint table untouched. -/
theorem webhook_suspension_unimplemented :
    (∀ (d : WebhookEventData) (endpoints : List WebhookEndpointRow),
        (WebhookTasks.process_webhook_event d endpoints).1.status = "success"
        ∧ (WebhookTasks.process_webhook_event d endpoints).2 = endpoints)
    ∧ WebhookTasks.process_webhook_event webhookEventC4 [suspendedEndpoint] =
        ({ status := "success", event_type := "message.created", client_id := "client-1" },
         [suspendedEndpoint]) := by
  exact ⟨fun d endpoints => ⟨rfl, rfl⟩, rfl⟩

/-! ## Claim C10 -/

/-- Claim C10: the online-users query is not tenant-scoped —
`get_online_users` returns the `user_id` of every connected session across
all clients, and the `online_users` socket event reports that full list to
any authenticated session, so for any two runs differing only in which
client the requester belongs to, the returned list is the same. -/
theorem online_users_not_tenant_scoped :
    (∀ (session_users : List (String × UserInfo)) (u : String),
        u ∈ Sockets.get_online_users session_users ↔
          ∃ sid info, (sid, info) ∈ session_users ∧ info.user_id = u ∧ u ≠ "")
    ∧ (∀ (session_users : List (String × UserInfo)) (sid1 sid2 : String),
        (lookupKey sid1 session_users).isSome = true →
        (lookupKey sid2 session_users).isSome = true →
        Sockets.online_users_event session_users sid1 =
          Sockets.online_users_event session_users sid2) := by
  constructor
  · intro su u
    simp only [Sockets.get_online_users, List.mem_map, List.mem_filter]
    constructor
    · rintro ⟨⟨sid, info⟩, ⟨hmem, hne⟩, hu⟩
      refine ⟨sid, info, hmem, hu, ?_⟩
      simp only [decide_eq_true_eq] at hne
      rw [← hu]
      exact hne
    · rintro ⟨sid, info, hmem, huid, hne⟩
      refine ⟨(sid, info), ⟨hmem, ?_⟩, huid⟩
      simp only [decide_eq_true_eq]
      rw [huid]
      exact hne
  · intro su sid1 sid2 h1 h2
    obtain ⟨a, ha⟩ := Option.isSome_iff_exists.mp h1
    obtain ⟨b, hb⟩ := Option.isSome_iff_exists.mp h2
    unfold Sockets.online_users_event
    rw [ha, hb]

/-- Witness for C10: in a registry holding a session of tenant `clientA`
and a session of tenant `clientB`, both requesters receive the same list. -/
theorem online_users_not_tenant_scoped_witness :
    Sockets.online_users_event sessionsTwoTenants ("sidA") =
      Sockets.online_users_event sessionsTwoTenants ("sidB")
    ∧ infoTenantA.client_id ≠ infoTenantB.client_id :=
  ⟨online_users_not_tenant_scoped.2 sessionsTwoTenants ("sidA") ("sidB")
      (by decide) (by decide),
   by decide⟩

/-! ## Claim C8 -/

/-- Helper: after a disconnect, the sid has no session entry. -/
theorem disconnect_lookup_none (s : SioState) (sid : String) :
    lookupKey sid (Sockets.disconnect s sid).session_users = none := by
  unfold Sockets.disconnect
  cases h : lookupKey sid s.session_users with
  | none => exact h
  | some info =>
      by_cases hk : info.connection_key ≠ ""
      · simp [h, hk, lookupKey_eraseKey]
      · simp [h, hk, lookupKey_eraseKey]

/-- Helper: disconnecting a sid with no session entry is the identity. -/
theorem disconnect_no_session (s : SioState) (sid : String)
    (h : lookupKey sid s.session_users = none) : Sockets.disconnect s sid = s := by
  unfold Sockets.disconnect
  rw [h]

/-- Claim C8: teardown is idempotent — running the socket.io `disconnect`
handler (resp. `ConnectionManager.disconnect_async`) twice in succession
equals running it once, the first run removes the identity's registry entry,
and the second run is a total no-op that raises no error. -/
theorem teardown_idempotent :
    (∀ (s : SioState) (sid : String),
        Sockets.disconnect (Sockets.disconnect s sid) sid = Sockets.disconnect s sid)
    ∧ (∀ (s : SioState) (sid : String) (info : UserInfo),
        lookupKey sid s.session_users = some info →
        lookupKey sid (Sockets.disconnect s sid).session_users = none
        ∧ (info.connection_key ≠ "" →
            lookupKey info.connection_key (Sockets.disconnect s sid).active_connections = none))
    ∧ (∀ (s : CMState) (user_id : String),
        ConnectionManager.disconnect_async (ConnectionManager.disconnect_async s user_id) user_id
          = ConnectionManager.disconnect_async s user_id)
    ∧ (∀ (s : CMState) (user_id : String),
        lookupKey user_id (ConnectionManager.disconnect_async s user_id).active_connections = none) := by
  refine ⟨?_, ?_, ?_, ?_⟩
  · intro s sid
    exact disconnect_no_session _ _ (disconnect_lookup_none s sid)
  · intro s sid info h
    refine ⟨disconnect_lookup_none s sid, ?_⟩
    intro hk
    simp [Sockets.disconnect, h, hk, lookupKey_eraseKey]
  · intro s uid
    cases h : lookupKey uid s.active_connections with
    | none =>
        simp [ConnectionManager.disconnect_async, ConnectionManager.cleanup_user_internal,
          h, lookupKey_eraseKey, eraseKey_eraseKey]
    | some ws =>
        simp [ConnectionManager.disconnect_async, ConnectionManager.cleanup_user_internal,
          h, lookupKey_eraseKey, eraseKey_eraseKey]
  · intro s uid
    cases h : lookupKey uid s.active_connections with
    | none =>
        simp [ConnectionManager.disconnect_async, ConnectionManager.cleanup_user_internal,
          h, lookupKey_eraseKey]
    | some ws =>
        simp [ConnectionManager.disconnect_async, ConnectionManager.cleanup_user_internal,
          h, lookupKey_eraseKey]

/-- Witness for C8: the connected session of `sioStateC8` is removed by one
teardown, and the registry entry for its connection key is gone. -/
theorem teardown_idempotent_witness :
    lookupKey ("sidA") (Sockets.disconnect sioStateC8 ("sidA")).session_users = none
    ∧ lookupKey ("clientA:alice")
        (Sockets.disconnect sioStateC8 ("sidA")).active_connections = none := by
  have h := teardown_idempotent.2.1 sioStateC8 ("sidA") infoTenantA (by decide)
  exact ⟨h.1, h.2 (by decide)⟩

/-! ## Claim C3 -/

/-- Claim C3 (code bug): the spec requires the email fallback of a
websocket notification to be exercised exactly when live delivery failed or
no room member was online; in the code, every run of
`process_websocket_notification` that passes field validation executes
`from app.sockets.notification_utils import send_websocket_notification,
check_room_has_online_users`, and the second name is not defined in that
module, so the call raises `ImportError`, is caught by the blanket
`except`, and returns an error result with no `DeliveryAttempt` recorded
and the email fallback never exercised — regardless of room presence.
(Even were the helper present, the subsequent call passes the keyword
`meta` to `send_websocket_notification`, whose parameter is named
`metadata`, raising `TypeError` with the same effect.) -/
theorem websocket_fallback_unreachable :
    ∀ (d : WsNotificationData) (providers : List Provider)
      (session_users : List (String × UserInfo)) (user_rooms : List (String × List String)),
      d.content ≠ "" →
      (d.room_id.isSome = true ∨ d.email_fallback.isSome = true) →
      NotificationTasks.process_websocket_notification d providers session_users user_rooms =
        { status := "error",
          error := some ((PyException.importErr ("check_room_has_online_users")).message),
          email_fallback_used := false, delivery_attempts := [] } := by
  intro d providers su ur hcontent hone
  have hguard : (d.room_id.isNone && d.email_fallback.isNone) = false := by
    rcases hone with h | h
    · simp [Option.isNone, Option.isSome] at h ⊢
      cases hr : d.room_id with
      | none => rw [hr] at h; simp at h
      | some r => simp
    · simp [Option.isNone, Option.isSome] at h ⊢
      cases hf : d.email_fallback with
      | none => rw [hf] at h; simp at h
      | some fb => simp
  unfold NotificationTasks.process_websocket_notification
  rw [if_neg hcontent, if_neg (by simp [hguard])]
  rfl

/-- Witness for C3: a websocket notification with a target room and an
email fallback descriptor yields the import-failure error result. -/
theorem websocket_fallback_unreachable_witness :
    NotificationTasks.process_websocket_notification wsDataC3 [postmarkHealthy] [] [] =
      { status := "error",
        error := some ((PyException.importErr ("check_room_has_online_users")).message),
        email_fallback_used := false, delivery_attempts := [] } :=
  websocket_fallback_unreachable wsDataC3 [postmarkHealthy] [] [] (by decide) (by decide)

/-! ## Lemmas about provider selection (shared by C2, C5, C6) -/

/-- The selected provider is one of the configured providers. -/
theorem get_provider_for_sending_mem (providers : List Provider) (r : Nat) (p : Provider)
    (h : EmailProviderManager.get_provider_for_sending providers r = some p) :
    p ∈ providers := by
  unfold EmailProviderManager.get_provider_for_sending at h
  by_cases he : providers.isEmpty
  · rw [if_pos he] at h
    cases h
  · rw [if_neg he] at h
    cases h1 : (if r ≤ 5 then
        providers.find? (fun q => q.is_primary && decide (r ≤ q.max_recipients))
      else none) with
    | some q =>
        simp only [h1] at h
        cases h
        by_cases h5 : r ≤ 5
        · rw [if_pos h5] at h1
          exact List.mem_of_find?_eq_some h1
        · rw [if_neg h5] at h1
          cases h1
    | none =>
        simp only [h1] at h
        cases h2 : providers.find? (fun q => q.is_bulk && decide (r ≤ q.max_recipients)) with
        | some q =>
            simp only [h2] at h
            cases h
            exact List.mem_of_find?_eq_some h2
        | none =>
            simp only [h2] at h
            exact List.mem_of_find?_eq_some h

/-- The fallback provider is one of the configured providers. -/
theorem get_fallback_provider_mem (providers : List Provider) (t : EmailProviderType)
    (p : Provider) (h : EmailProviderManager.get_fallback_provider providers t = some p) :
    p ∈ providers :=
  List.mem_of_find?_eq_some h

/-- When every configured provider fails to send, one email processing
cycle ends in an error result and records at most two `DeliveryAttempt`
rows, all failed. -/
theorem process_email_all_fail (d : EmailNotificationData) (providers : List Provider)
    (hfail : ∀ p ∈ providers, p.send_success = false) :
    (NotificationTasks.process_email_notification d providers).1.status = "error"
    ∧ (∀ a ∈ (NotificationTasks.process_email_notification d providers).2, a.success = false)
    ∧ (NotificationTasks.process_email_notification d providers).2.length ≤ 2 := by
  unfold NotificationTasks.process_email_notification
  split
  · simp
  · cases hcid : d.client_id with
    | none => simp
    | some cid =>
        cases hsel : EmailProviderManager.get_provider_for_sending providers
            (NotificationTasks.recipient_count d) with
        | none => simp
        | some p =>
            have hp : p.send_success = false :=
              hfail p (get_provider_for_sending_mem _ _ _ hsel)
            cases hfb : EmailProviderManager.get_fallback_provider providers
                (if p.provider_type.className = "SMTPProvider" then EmailProviderType.smtp
                 else EmailProviderType.mailgun) with
            | none => simp [hp, hfb]
            | some fb =>
                have hfb2 : fb.send_success = false :=
                  hfail fb (get_fallback_provider_mem _ _ _ hfb)
                simp [hp, hfb, hfb2]

/-! ## Claim C2 -/

/-- Counterexample for C2: a notification with `max_retry_attempts = 1` and
a single always-failing provider reaches `Failed`, but with 2 recorded
`DeliveryAttempt` rows (the in-cycle fallback re-sends through the same
provider), not the claimed exactly-`max_retry_attempts` (= 1) rows. -/
theorem retry_ceiling_counterexample :
    cexNotificationC2.max_retry_attempts = 1
    ∧ (process_after_trigger cexNotificationC2 [cexProviderC2]).2.length = 2
    ∧ (process_after_trigger cexNotificationC2 [cexProviderC2]).1 = NotificationStatus.failed
    ∧ (∀ a ∈ (process_after_trigger cexNotificationC2 [cexProviderC2]).2,
        a.success = false) := by
  refine ⟨rfl, rfl, rfl, ?_⟩
  decide

/-- Claim C2 (amended): processing is single-cycle — a notification whose
providers always fail reaches status `Failed` with at most two recorded
`DeliveryAttempt` rows (one primary send plus at most one in-cycle
fallback send), all failed; the outcome is invariant under
`max_retry_attempts`, which the pipeline never reads (`trigger_delivery`
does not even place it in the task payload, and `increment_retry_count`
has no caller). -/
theorem retry_ceiling_single_cycle :
    ∀ (n : NotificationRow) (providers : List Provider) (k : Nat),
      (∀ p ∈ providers, p.send_success = false) →
      process_after_trigger { n with max_retry_attempts := k } providers
          = process_after_trigger n providers
      ∧ (process_after_trigger n providers).1 = NotificationStatus.failed
      ∧ (∀ a ∈ (process_after_trigger n providers).2, a.success = false)
      ∧ (process_after_trigger n providers).2.length ≤ 2 := by
  intro n providers k hfail
  have h := process_email_all_fail (NotificationService.trigger_payload n) providers hfail
  refine ⟨rfl, ?_, ?_, ?_⟩
  · unfold process_after_trigger NotificationTasks.process_notification_async_email
    simp [h.1]
  · intro a ha
    exact h.2.1 a ha
  · exact h.2.2

/-- Witness for C2 (amended): the always-failing scenario evaluated at the
concrete notification and provider. -/
theorem retry_ceiling_single_cycle_witness :
    (process_after_trigger cexNotificationC2 [cexProviderC2]).1 = NotificationStatus.failed
    ∧ (process_after_trigger cexNotificationC2 [cexProviderC2]).2.length ≤ 2 := by
  have h := retry_ceiling_single_cycle cexNotificationC2 [cexProviderC2] 7 (by decide)
  exact ⟨h.2.1, h.2.2.2⟩

/-! ## Claim C5 -/

/-- Helper: a nonempty list is not `isEmpty`. -/
theorem isEmpty_false_of_mem {α : Type} {l : List α} {a : α} (h : a ∈ l) :
    l.isEmpty = false := by
  cases l with
  | nil => cases h
  | cons x xs => rfl

/-- Helper: a satisfying member guarantees `find?` yields a satisfying
member of the list. -/
theorem find?_of_mem {α : Type} (l : List α) (p : α → Bool) (a : α)
    (ha : a ∈ l) (hpa : p a = true) :
    ∃ b, l.find? p = some b ∧ b ∈ l ∧ p b = true := by
  have hs : (l.find? p).isSome := by
    rw [List.find?_isSome]
    exact ⟨a, ha, hpa⟩
  obtain ⟨b, hb⟩ := Option.isSome_iff_exists.mp hs
  exact ⟨b, hb, List.mem_of_find?_eq_some hb, List.find?_some hb⟩

/-- Claim C5: for an email send with recipient count `r`: when `r ≤ 5` and
a primary provider has capacity for `r`, a primary provider with capacity
is selected; otherwise, when a bulk-capable provider has capacity, such a
provider is selected; otherwise any provider with capacity is selected;
and when no provider has capacity, selection yields `None` and the
notification fails immediately with the no-provider error and no recorded
`DeliveryAttempt`. -/
theorem email_provider_selection_order :
    ∀ (providers : List Provider) (r : Nat),
      (r ≤ 5 → ∀ p0 ∈ providers, p0.is_primary = true → r ≤ p0.max_recipients →
          ∃ p, EmailProviderManager.get_provider_for_sending providers r = some p
            ∧ p ∈ providers ∧ p.is_primary = true ∧ r ≤ p.max_recipients)
      ∧ (¬ (r ≤ 5 ∧ ∃ p0 ∈ providers, p0.is_primary = true ∧ r ≤ p0.max_recipients) →
          ∀ p0 ∈ providers, p0.is_bulk = true → r ≤ p0.max_recipients →
          ∃ p, EmailProviderManager.get_provider_for_sending providers r = some p
            ∧ p ∈ providers ∧ p.is_bulk = true ∧ r ≤ p.max_recipients)
      ∧ (¬ (r ≤ 5 ∧ ∃ p0 ∈ providers, p0.is_primary = true ∧ r ≤ p0.max_recipients) →
          ¬ (∃ p0 ∈ providers, p0.is_bulk = true ∧ r ≤ p0.max_recipients) →
          ∀ p0 ∈ providers, r ≤ p0.max_recipients →
          ∃ p, EmailProviderManager.get_provider_for_sending providers r = some p
            ∧ p ∈ providers ∧ r ≤ p.max_recipients)
      ∧ ((∀ p0 ∈ providers, p0.max_recipients < r) →
          EmailProviderManager.get_provider_for_sending providers r = none)
      ∧ (∀ (d : EmailNotificationData) (cid : String),
          d.to_email ≠ "" → d.subject ≠ "" → d.content ≠ "" →
          d.client_id = some cid →
          EmailProviderManager.get_provider_for_sending providers
              (NotificationTasks.recipient_count d) = none →
          NotificationTasks.process_email_notification d providers =
            ({ status := "error", provider := none, fallback_used := false,
               error := some ("No email provider configured for client " ++ cid) }, [])
          ∧ (NotificationTasks.process_notification_async_email d providers).1
              = NotificationStatus.failed) := by
  intro providers r
  refine ⟨?_, ?_, ?_, ?_, ?_⟩
  · intro h5 p0 hmem hprim hcap
    obtain ⟨b, hfind, hbmem, hbp⟩ := find?_of_mem providers
      (fun q => q.is_primary && decide (r ≤ q.max_recipients)) p0 hmem
      (by simp [hprim, hcap])
    simp only [Bool.and_eq_true, decide_eq_true_eq] at hbp
    refine ⟨b, ?_, hbmem, hbp.1, hbp.2⟩
    unfold EmailProviderManager.get_provider_for_sending
    rw [if_neg (by simp [isEmpty_false_of_mem hmem])]
    have hstep : (if r ≤ 5 then
        providers.find? (fun q => q.is_primary && decide (r ≤ q.max_recipients))
      else none) = some b := by
      rw [if_pos h5, hfind]
    simp only [hstep]
  · intro hnot p0 hmem hbulk hcap
    have hfirst : (if r ≤ 5 then
        providers.find? (fun q => q.is_primary && decide (r ≤ q.max_recipients))
      else none) = none := by
      by_cases h5 : r ≤ 5
      · rw [if_pos h5, List.find?_eq_none]
        intro x hx hpx
        simp only [Bool.and_eq_true, decide_eq_true_eq] at hpx
        exact hnot ⟨h5, x, hx, hpx.1, hpx.2⟩
      · rw [if_neg h5]
    obtain ⟨b, hfind, hbmem, hbp⟩ := find?_of_mem providers
      (fun q => q.is_bulk && decide (r ≤ q.max_recipients)) p0 hmem
      (by simp [hbulk, hcap])
    simp only [Bool.and_eq_true, decide_eq_true_eq] at hbp
    refine ⟨b, ?_, hbmem, hbp.1, hbp.2⟩
    unfold EmailProviderManager.get_provider_for_sending
    rw [if_neg (by simp [isEmpty_false_of_mem hmem])]
    simp only [hfirst, hfind]
  · intro hnot hnobulk p0 hmem hcap
    have hfirst : (if r ≤ 5 then
        providers.find? (fun q => q.is_primary && decide (r ≤ q.max_recipients))
      else none) = none := by
      by_cases h5 : r ≤ 5
      · rw [if_pos h5, List.find?_eq_none]
        intro x hx hpx
        simp only [Bool.and_eq_true, decide_eq_true_eq] at hpx
        exact hnot ⟨h5, x, hx, hpx.1, hpx.2⟩
      · rw [if_neg h5]
    have hsecond : providers.find? (fun q => q.is_bulk && decide (r ≤ q.max_recipients))
        = none := by
      rw [List.find?_eq_none]
      intro x hx hpx
      simp only [Bool.and_eq_true, decide_eq_true_eq] at hpx
      exact hnobulk ⟨x, hx, hpx.1, hpx.2⟩
    obtain ⟨b, hfind, hbmem, hbp⟩ := find?_of_mem providers
      (fun q => decide (r ≤ q.max_recipients)) p0 hmem (by simp [hcap])
    simp only [decide_eq_true_eq] at hbp
    refine ⟨b, ?_, hbmem, hbp⟩
    unfold EmailProviderManager.get_provider_for_sending
    rw [if_neg (by simp [isEmpty_false_of_mem hmem])]
    simp only [hfirst, hsecond, hfind]
  · intro hall
    unfold EmailProviderManager.get_provider_for_sending
    by_cases he : providers.isEmpty
    · rw [if_pos he]
    · rw [if_neg he]
      have hfirst : (if r ≤ 5 then
          providers.find? (fun q => q.is_primary && decide (r ≤ q.max_recipients))
        else none) = none := by
        by_cases h5 : r ≤ 5
        · rw [if_pos h5, List.find?_eq_none]
          intro x hx hpx
          simp only [Bool.and_eq_true, decide_eq_true_eq] at hpx
          have := hall x hx
          omega
        · rw [if_neg h5]
      have hsecond : providers.find? (fun q => q.is_bulk && decide (r ≤ q.max_recipients))
          = none := by
        rw [List.find?_eq_none]
        intro x hx hpx
        simp only [Bool.and_eq_true, decide_eq_true_eq] at hpx
        have := hall x hx
        omega
      have hthird : providers.find? (fun q => decide (r ≤ q.max_recipients)) = none := by
        rw [List.find?_eq_none]
        intro x hx hpx
        simp only [decide_eq_true_eq] at hpx
        have := hall x hx
        omega
      simp only [hfirst, hsecond, hthird]
  · intro d cid h1 h2 h3 hcid hsel
    constructor
    · unfold NotificationTasks.process_email_notification
      rw [if_neg (by simp [h1, h2, h3])]
      simp only [hcid, hsel]
    · unfold NotificationTasks.process_notification_async_email
        NotificationTasks.process_email_notification
      rw [if_neg (by simp [h1, h2, h3])]
      simp only [hcid, hsel]
      rfl

/-- Witness for C5: with a capable primary and a bulk provider configured,
a single-recipient send selects a capable primary provider. -/
theorem email_provider_selection_order_witness :
    ∃ p, EmailProviderManager.get_provider_for_sending
          [primarySmallProvider, bulkLargeProvider] 1 = some p
      ∧ p ∈ [primarySmallProvider, bulkLargeProvider]
      ∧ p.is_primary = true ∧ 1 ≤ p.max_recipients :=
  (email_provider_selection_order [primarySmallProvider, bulkLargeProvider] 1).1
    (by decide) primarySmallProvider (by decide) (by decide) (by decide)

/-! ## Claim C6 -/

/-- Counterexample for C6: a failing primary SendGrid provider with a
healthy Postmark provider also configured.  The code derives the failed
provider type as `MAILGUN` (the class name is not `"SMTPProvider"`), so
`get_fallback_provider` returns the first provider whose key differs from
`"mailgun"` — the failed SendGrid provider itself.  Both recorded attempts
name `SendGridProvider`, the other configured provider (which would have
succeeded) is never attempted, and the cycle ends in error. -/
theorem provider_fallback_counterexample :
    ((NotificationTasks.process_email_notification emailDataC6
        [sendgridPrimaryFailing, postmarkHealthy]).2.map (fun a => a.provider_name))
      = ["SendGridProvider", "SendGridProvider"]
    ∧ postmarkHealthy ∈ [sendgridPrimaryFailing, postmarkHealthy]
    ∧ postmarkHealthy.provider_type ≠ sendgridPrimaryFailing.provider_type
    ∧ postmarkHealthy.send_success = true
    ∧ (NotificationTasks.process_email_notification emailDataC6
        [sendgridPrimaryFailing, postmarkHealthy]).1.status = "error" := by
  refine ⟨rfl, by decide, by decide, rfl, rfl⟩

/-- Claim C6 (amended): every send attempt, primary or fallback, appends a
`DeliveryAttempt` record, in order, before the next action is decided; on a
primary failure the failed provider type is derived from the class name
alone (`SMTP` for `"SMTPProvider"`, otherwise `MAILGUN`) and the provider
attempted exactly once as fallback is the first configured provider whose
type key differs from that derived type — which may be the failed provider
itself and need not be a distinct configured provider even when one
exists. -/
theorem delivery_attempt_audit_trace :
    ∀ (d : EmailNotificationData) (providers : List Provider) (p : Provider) (cid : String),
      d.to_email ≠ "" → d.subject ≠ "" → d.content ≠ "" → d.client_id = some cid →
      EmailProviderManager.get_provider_for_sending providers
          (NotificationTasks.recipient_count d) = some p →
      (p.send_success = true →
        (NotificationTasks.process_email_notification d providers).2 =
          [{ attempt_number := d.attempts + 1, provider_name := p.provider_type.className,
             success := true, error_message := p.send_error }])
      ∧ (p.send_success = false →
        (NotificationTasks.process_email_notification d providers).2 =
          { attempt_number := d.attempts + 1, provider_name := p.provider_type.className,
            success := false, error_message := p.send_error } ::
          (EmailProviderManager.get_fallback_provider providers
              (if p.provider_type.className = "SMTPProvider" then EmailProviderType.smtp
               else EmailProviderType.mailgun)).toList.map
            (fun fb => { attempt_number := d.attempts + 2,
                         provider_name := fb.provider_type.className,
                         success := fb.send_success, error_message := fb.send_error })) := by
  intro d providers p cid h1 h2 h3 hcid hsel
  constructor
  · intro hs
    unfold NotificationTasks.process_email_notification
    rw [if_neg (by simp [h1, h2, h3])]
    simp [hcid, hsel, hs]
  · intro hs
    unfold NotificationTasks.process_email_notification
    rw [if_neg (by simp [h1, h2, h3])]
    simp only [hcid, hsel, hs]
    cases hfb : EmailProviderManager.get_fallback_provider providers
        (if p.provider_type.className = "SMTPProvider" then EmailProviderType.smtp
         else EmailProviderType.mailgun) with
    | none => simp [hfb, hs]
    | some fb => cases hfb2 : fb.send_success <;> simp [hfb, hfb2, hs]

/-- Witness for C6 (amended): the trace of the failing-SendGrid scenario. -/
theorem delivery_attempt_audit_trace_witness :
    (NotificationTasks.process_email_notification emailDataC6
        [sendgridPrimaryFailing, postmarkHealthy]).2 =
      { attempt_number := emailDataC6.attempts + 1,
        provider_name := sendgridPrimaryFailing.provider_type.className,
        success := false, error_message := sendgridPrimaryFailing.send_error } ::
      (EmailProviderManager.get_fallback_provider [sendgridPrimaryFailing, postmarkHealthy]
          (if sendgridPrimaryFailing.provider_type.className = "SMTPProvider"
           then EmailProviderType.smtp else EmailProviderType.mailgun)).toList.map
        (fun fb => { attempt_number := emailDataC6.attempts + 2,
                     provider_name := fb.provider_type.className,
                     success := fb.send_success, error_message := fb.send_error }) :=
  (delivery_attempt_audit_trace emailDataC6 [sendgridPrimaryFailing, postmarkHealthy]
      sendgridPrimaryFailing ("client-1")
      (by decide) (by decide) (by decide) rfl (by decide)).2 (by decide)

/-! ## Claim C1 -/

/-- Helper: a connection key `client ++ ":" ++ user` is never the empty
(falsy) string. -/
theorem append_colon_ne_empty (a b : String) : a ++ ":" ++ b ≠ "" := by
  intro h
  have h2 := congrArg String.length h
  simp [String.length_append] at h2
  have h3 : (":" : String).length = 1 := rfl
  omega

/-- Helper: one more `connect` for an identity that already holds a single
session `c` closes `c`, removes its entries, and installs the new session
`d` — eviction strictly precedes installation inside the handler. -/
theorem connect_registration_step (client user dn : String) (rooms : List String)
    (c d : String) (C : List String) :
    Sockets.connect_registration (Sockets.singleSessionState client user dn rooms c C)
        client user dn false d rooms
      = Sockets.singleSessionState client user dn rooms d (C ++ [c]) := by
  unfold Sockets.connect_registration Sockets.singleSessionState Sockets.registeredInfo
    Sockets.disconnect
  simp [lookupKey, insertKey, eraseKey, append_colon_ne_empty]

/-- Helper: the first `connect` from the empty registry installs the single
session with nothing closed. -/
theorem connect_registration_first (client user dn : String) (rooms : List String)
    (d : String) :
    Sockets.connect_registration SioState.empty client user dn false d rooms
      = Sockets.singleSessionState client user dn rooms d [] := by
  unfold Sockets.connect_registration Sockets.singleSessionState Sockets.registeredInfo
    SioState.empty
  simp [lookupKey, insertKey, eraseKey]

/-- Helper: folding further connects over a single-session state yields the
single-session state of the last sid, closing every superseded sid in
order. -/
theorem connect_sequence_single (client user dn : String) (rooms : List String) :
    ∀ (sids : List String) (c : String) (C : List String),
      Sockets.connect_sequence client user dn rooms sids
          (Sockets.singleSessionState client user dn rooms c C)
        = Sockets.singleSessionState client user dn rooms
            (sids.getLastD c) (C ++ (c :: sids).dropLast) := by
  intro sids
  induction sids with
  | nil =>
      intro c C
      simp [Sockets.connect_sequence]
  | cons d rest ih =>
      intro c C
      unfold Sockets.connect_sequence at ih ⊢
      simp only [List.foldl_cons]
      rw [connect_registration_step, ih d (C ++ [c])]
      rw [List.getLastD_cons]
      simp

/-- Claim C1: for every (client, user) identity, a sequence of N completed
`connect` handshakes for that identity, starting from the empty registry,
leaves exactly one active session (the last sid), with the N−1 earlier
sessions each evicted — their transports closed, in order, and their
registry entries removed — before the new session was installed. -/
theorem single_session_registry_invariant
    (client user display_name : String) (rooms : List String)
    (sids : List String) (h : sids ≠ []) (hnd : sids.Nodup) :
    Sockets.connect_sequence client user display_name rooms sids SioState.empty
        = Sockets.singleSessionState client user display_name rooms
            (sids.getLast h) sids.dropLast
    ∧ lookupKey (client ++ ":" ++ user)
        (Sockets.connect_sequence client user display_name rooms sids
            SioState.empty).active_connections = some (sids.getLast h)
    ∧ (Sockets.connect_sequence client user display_name rooms sids
          SioState.empty).active_connections.length = 1
    ∧ (Sockets.connect_sequence client user display_name rooms sids
          SioState.empty).closed = sids.dropLast
    ∧ (∀ sid ∈ sids.dropLast,
        lookupKey sid (Sockets.connect_sequence client user display_name rooms sids
            SioState.empty).session_users = none) := by
  have hlast_not_dropLast : sids.getLast h ∉ sids.dropLast := by
    have hsplit : sids.dropLast ++ [sids.getLast h] = sids :=
      List.dropLast_append_getLast h
    rw [← hsplit] at hnd
    rw [List.nodup_append] at hnd
    intro hmem
    exact hnd.2.2 hmem (by simp)
  have hmain : Sockets.connect_sequence client user display_name rooms sids SioState.empty
      = Sockets.singleSessionState client user display_name rooms
          (sids.getLast h) sids.dropLast := by
    cases sids with
    | nil => cases h rfl
    | cons s rest =>
        unfold Sockets.connect_sequence
        simp only [List.foldl_cons]
        rw [connect_registration_first]
        have hseq := connect_sequence_single client user display_name rooms rest s []
        unfold Sockets.connect_sequence at hseq
        rw [hseq]
        rw [List.getLast_eq_getLastD]
        simp
  refine ⟨hmain, ?_, ?_, ?_, ?_⟩
  · rw [hmain]
    simp [Sockets.singleSessionState, lookupKey]
  · rw [hmain]
    rfl
  · rw [hmain]
    rfl
  · intro sid hsid
    rw [hmain]
    have hne : sids.getLast h ≠ sid := by
      intro he
      rw [he] at hlast_not_dropLast
      exact hlast_not_dropLast hsid
    simp [Sockets.singleSessionState, lookupKey, hne]

/-- Witness for C1: three successive connects for one identity leave only
the third session registered and close the first two in order. -/
theorem single_session_registry_invariant_witness :
    Sockets.connect_sequence ("clientA") ("alice") ("alice") ["room-1"]
        ["s1", "s2", "s3"] SioState.empty
      = Sockets.singleSessionState ("clientA") ("alice") ("alice") ["room-1"]
          ("s3") ["s1", "s2"]
    ∧ (Sockets.connect_sequence ("clientA") ("alice") ("alice") ["room-1"]
          ["s1", "s2", "s3"] SioState.empty).closed = ["s1", "s2"] := by
  have h := single_session_registry_invariant ("clientA") ("alice") ("alice") ["room-1"]
    ["s1", "s2", "s3"] (by decide) (by decide)
  exact ⟨h.1, h.2.2.2.1⟩

/-! ## Claim C7 -/

/-- Counterexample for C7: on the raw websocket `/open` path a first frame
carrying only `msg = "connect"` and a `user_id` — no credential of any
kind — is accepted and the session is registered (`manager.connect` runs),
so the session becomes active without any credential validating; and on
the Socket.IO path an invalid api key is rejected by plain disconnect with
no error frame emitted, where the claim requires an error frame. -/
theorem auth_gate_counterexample :
    WebsocketRoute.websocket_endpoint_registers (InitRecv.frame frameNoCredential) = true
    ∧ lookupKey ("api_key") frameNoCredential = none
    ∧ lookupKey ("credential") frameNoCredential = none
    ∧ Sockets.connect_auth (some authBadKey) (fun _ => none) (fun _ => none) =
        { accepted := none, emitted_error := none } := by
  refine ⟨by decide, rfl, rfl, by decide⟩

/-- Claim C7 (amended): two handshake paths exist.  On the raw websocket
`/open` path the session is registered exactly when the first frame is a
JSON object with `msg = "connect"` and a truthy (non-empty) `user_id` — no
credential is read or validated; a connect frame whose `user_id` is the
empty string is closed without registration and without an error frame;
and a malformed first frame receives an error frame while the socket is
still writable and is closed without registration.  On the Socket.IO path
the session is accepted exactly when `auth` supplies `user_id` and
`api_key` and the key validates as a master or scoped key, but a rejected
connection is closed without any error frame. -/
theorem handshake_auth_characterization :
    (∀ r : InitRecv,
        WebsocketRoute.websocket_endpoint_registers r = true ↔
          ∃ fields uid, r = InitRecv.frame fields
            ∧ lookupKey ("msg") fields = some ("connect")
            ∧ lookupKey ("user_id") fields = some uid ∧ uid ≠ "")
    ∧ (∀ fields : List (String × String),
        lookupKey ("msg") fields = some ("connect") →
        lookupKey ("user_id") fields = some ("") →
        WebsocketRoute.websocket_endpoint_registers (InitRecv.frame fields) = false
        ∧ (WebsocketRoute.handle_initial_connection (InitRecv.frame fields)).error_sent = none)
    ∧ (∀ fields : List (String × String),
        (lookupKey ("msg") fields ≠ some ("connect")
          ∨ (lookupKey ("user_id") fields).isNone = true) →
        WebsocketRoute.handle_initial_connection (InitRecv.frame fields) =
          { user_id := none, error_sent := some ("Invalid connection message"),
            closed_early := true })
    ∧ (∀ f1 f2 : List (String × String),
        lookupKey ("msg") f1 = lookupKey ("msg") f2 →
        lookupKey ("user_id") f1 = lookupKey ("user_id") f2 →
        WebsocketRoute.handle_initial_connection (InitRecv.frame f1)
          = WebsocketRoute.handle_initial_connection (InitRecv.frame f2))
    ∧ (∀ (auth : Option (List (String × String)))
        (vm : String → Option String) (vs : String → Option (String × String)),
        (Sockets.connect_auth auth vm vs).emitted_error = none)
    ∧ (∀ (auth : Option (List (String × String)))
        (vm : String → Option String) (vs : String → Option (String × String)),
        ((Sockets.connect_auth auth vm vs).accepted.isSome = true ↔
          ∃ fields uid key, auth = some fields
            ∧ lookupKey ("user_id") fields = some uid
            ∧ lookupKey ("api_key") fields = some key
            ∧ ((vm key).isSome = true ∨ (vs key).isSome = true))) := by
  refine ⟨?_, ?_, ?_, ?_, ?_, ?_⟩
  · intro r
    cases r with
    | timeout =>
        simp [WebsocketRoute.websocket_endpoint_registers,
          WebsocketRoute.handle_initial_connection]
    | badJson =>
        simp [WebsocketRoute.websocket_endpoint_registers,
          WebsocketRoute.handle_initial_connection]
    | frame fields =>
        simp only [WebsocketRoute.websocket_endpoint_registers,
          WebsocketRoute.handle_initial_connection]
        by_cases hcond : (lookupKey ("msg") fields ≠ some ("connect")
            ∨ (lookupKey ("user_id") fields).isNone = true)
        · rw [if_pos hcond]
          simp only [Bool.false_eq_true, false_iff]
          rintro ⟨f2, uid, hfe, hmsg, huid, hne⟩
          injection hfe with hfe
          subst hfe
          rcases hcond with hc | hc
          · exact hc hmsg
          · rw [Option.isNone_iff_eq_none] at hc
            rw [hc] at huid
            simp at huid
        · rw [if_neg hcond]
          push_neg at hcond
          obtain ⟨hmsg, hnn⟩ := hcond
          cases hu : lookupKey ("user_id") fields with
          | none =>
              rw [hu] at hnn
              simp at hnn
          | some uid =>
              simp only [hu, ne_eq, decide_not]
              constructor
              · intro hx
                refine ⟨fields, uid, rfl, hmsg, hu, ?_⟩
                simpa using hx
              · rintro ⟨f2, uid2, hfe, hmsg2, huid2, hne2⟩
                injection hfe with hfe
                subst hfe
                rw [hu] at huid2
                injection huid2 with huid2
                subst huid2
                simpa using hne2
  · intro fields hmsg huid
    have hcondf : ¬ (lookupKey ("msg") fields ≠ some ("connect")
        ∨ (lookupKey ("user_id") fields).isNone = true) := by
      push_neg
      exact ⟨by rw [hmsg], by rw [huid]; simp⟩
    constructor
    · simp only [WebsocketRoute.websocket_endpoint_registers,
        WebsocketRoute.handle_initial_connection]
      rw [if_neg hcondf]
      simp [huid]
    · simp only [WebsocketRoute.handle_initial_connection]
      rw [if_neg hcondf]
  · intro fields hcond
    simp only [WebsocketRoute.handle_initial_connection]
    rw [if_pos hcond]
  · intro f1 f2 hm hu
    simp only [WebsocketRoute.handle_initial_connection, hm, hu]
  · intro auth vm vs
    cases auth with
    | none => rfl
    | some fields =>
        cases h1 : lookupKey ("user_id") fields with
        | none => simp [Sockets.connect_auth, h1]
        | some uid =>
            cases h2 : lookupKey ("api_key") fields with
            | none => simp [Sockets.connect_auth, h1, h2]
            | some key =>
                cases h3 : vm key with
                | some c => simp [Sockets.connect_auth, h1, h2, h3]
                | none =>
                    cases h4 : vs key with
                    | some pr =>
                        obtain ⟨cid, su⟩ := pr
                        simp [Sockets.connect_auth, h1, h2, h3, h4]
                    | none => simp [Sockets.connect_auth, h1, h2, h3, h4]
  · intro auth vm vs
    cases auth with
    | none =>
        simp [Sockets.connect_auth]
    | some fields =>
        cases h1 : lookupKey ("user_id") fields with
        | none =>
            constructor
            · intro hx
              exfalso
              simp [Sockets.connect_auth, h1] at hx
            · rintro ⟨f2, uid, key, hfe, huid, hkey, hv⟩
              exfalso
              injection hfe with hfe
              subst hfe
              rw [h1] at huid
              cases huid
        | some uid =>
            cases h2 : lookupKey ("api_key") fields with
            | none =>
                constructor
                · intro hx
                  exfalso
                  simp [Sockets.connect_auth, h1, h2] at hx
                · rintro ⟨f2, uid2, key, hfe, huid, hkey, hv⟩
                  exfalso
                  injection hfe with hfe
                  subst hfe
                  rw [h2] at hkey
                  cases hkey
            | some key =>
                cases h3 : vm key with
                | some c =>
                    constructor
                    · intro hx
                      exact ⟨fields, uid, key, rfl, h1, h2, Or.inl (by simp [h3])⟩
                    · intro hx
                      simp [Sockets.connect_auth, h1, h2, h3]
                | none =>
                    cases h4 : vs key with
                    | some pr =>
                        obtain ⟨cid, su⟩ := pr
                        constructor
                        · intro hx
                          exact ⟨fields, uid, key, rfl, h1, h2, Or.inr (by simp [h4])⟩
                        · intro hx
                          simp [Sockets.connect_auth, h1, h2, h3, h4]
                    | none =>
                        constructor
                        · intro hx
                          exfalso
                          simp [Sockets.connect_auth, h1, h2, h3, h4] at hx
                        · rintro ⟨f2, uid2, key2, hfe, huid, hkey, hv⟩
                          exfalso
                          injection hfe with hfe
                          subst hfe
                          rw [h1] at huid
                          injection huid with huid
                          rw [h2] at hkey
                          injection hkey with hkey
                          subst hkey
                          rcases hv with hv | hv
                          · rw [h3] at hv
                            simp at hv
                          · rw [h4] at hv
                            simp at hv

/-- Witness for C7 (amended): a frame whose `msg` is not `"connect"` gets
the error frame and an early close without registration. -/
theorem handshake_auth_characterization_witness :
    WebsocketRoute.handle_initial_connection (InitRecv.frame [("msg", "hello")]) =
      { user_id := none, error_sent := some ("Invalid connection message"),
        closed_early := true }
    ∧ WebsocketRoute.websocket_endpoint_registers
        (InitRecv.frame [("msg", "connect"), ("user_id", "")]) = false :=
  ⟨handshake_auth_characterization.2.2.1 [("msg", "hello")] (by decide),
   (handshake_auth_characterization.2.1 [("msg", "connect"), ("user_id", "")]
      (by decide) (by decide)).1⟩
